import Mathlib

/-!
Shallow embedding of the server core of `redux-multiplayer`
(`src/server.ts`, `src/sharedUUIDv7.ts`, the SHA-256 primitive from
`src/index.ts`, message shapes from `src/shared.ts`).

Machine integers are modelled as `Nat` with explicit `% 2^32` / `% 256`
where JavaScript 32-bit coercion or `Uint8Array` truncation matters.
Byte arrays are `List Nat` whose elements are byte values.  JavaScript
dynamic values (the `actionData` payload, filter verdicts) are modelled
by the inductive `JSValue` below, with an explicit reference tag on
objects so that strict (reference) equality `===` can be expressed.
-/

/-- Model of a JavaScript runtime value as seen by the action pipeline.
Objects and promises carry a reference tag so that `===` (reference
identity) is expressible. -/
inductive JSValue where
  | jsNull
  | jsUndef
  | jsBool (b : Bool)
  | jsNum (n : Int)
  | jsStr (s : String)
  | jsObj (ref : Nat) (fields : List (String × JSValue))
  | jsPromise (ref : Nat)

open JSValue

/-- JavaScript `typeof`.  Note `typeof null` is `"object"`. -/
def jsTypeof : JSValue → String
  | jsNull => "object"
  | jsUndef => "undefined"
  | jsBool _ => "boolean"
  | jsNum _ => "number"
  | jsStr _ => "string"
  | jsObj _ _ => "object"
  | jsPromise _ => "object"

/-- JavaScript strict equality `===`: value equality on primitives,
reference identity on objects and promises. -/
def jsStrictEq : JSValue → JSValue → Bool
  | jsNull, jsNull => true
  | jsUndef, jsUndef => true
  | jsBool a, jsBool b => a == b
  | jsNum a, jsNum b => a == b
  | jsStr a, jsStr b => a == b
  | jsObj r _, jsObj t _ => r == t
  | jsPromise r, jsPromise t => r == t
  | _, _ => false

/-- JavaScript optional chaining `v?.f`: `undefined` on `null`/`undefined`,
own-property lookup on objects, `undefined` on primitives and promises
(neither strings nor `Promise.prototype` have `type`/`message`
properties). -/
def jsOptChain (v : JSValue) (f : String) : JSValue :=
  match v with
  | jsObj _ fields => (fields.lookup f).getD jsUndef
  | _ => jsUndef

/-- JavaScript nullish coalescing `a ?? b`. -/
def jsNullish (a b : JSValue) : JSValue :=
  match a with
  | jsNull => b
  | jsUndef => b
  | _ => a

/-- Wire messages sent from the server to a client during action
processing (`ServerToClientMessage` in `src/shared.ts`).  The three
fault responses are built dynamically in `src/server.ts` as
`{type: respType, actionId, message}`, modelled by the single `fault`
constructor carrying `respType`. -/
inductive SMsg where
  | fault (respType : String) (actionId : String) (message : JSValue)
  | ackAction (id : String)
  | replaceAction (fromId toId : String) (action : JSValue)
  | renameId (fromId toId : String)
  | action (action : JSValue) (id : String)

/-- One entry of `context.socketToClient`: the socket handle (as a
numeric key) and the client context's `autoClientId`. -/
structure ClientCtx where
  sock : Nat
  autoClientId : String
deriving DecidableEq

/-- The parts of `ReduxMPServerContext` the action pipeline touches:
the redux store state, `lastAction` and the `socketToClient` entries in
iteration order. -/
structure ServerCtx (S : Type) where
  state : S
  lastAction : String
  clients : List ClientCtx

/-- `options.actionFilter ? options.actionFilter(filterContext, msg.actionData) : msg.actionData`
(src/server.ts line 324).  The filter is modelled as a function of the
action data; the filter context's side channels (`getState`, `schedule`,
`verifyUUID`) do not influence the pipeline's own observable behaviour. -/
def filteredActionOf (filter : Option (JSValue → JSValue)) (actionData : JSValue) : JSValue :=
  match filter with
  | some f => f actionData
  | none => actionData

/-- `const filteredType = filteredAction?.type ?? filteredAction` (src/server.ts line 328). -/
def filteredTypeOf (filter : Option (JSValue → JSValue)) (actionData : JSValue) : JSValue :=
  jsNullish (jsOptChain (filteredActionOf filter actionData) "type") (filteredActionOf filter actionData)

/-- The fault arm of the `switch (filteredType)` in src/server.ts lines
329-351: the three string verdicts select an entry of the `respTypes`
table, every other value falls through to the acceptance path (`none`). -/
def respTypeOf : JSValue → Option String
  | jsStr s =>
      if s = "reject" then some "rejectAction"
      else if s = "needAuth" then some "needAuthentication"
      else if s = "badAuth" then some "badAuthorization"
      else none
  | _ => none

/-- Lexicographic order on character lists by numeric character value,
the order JavaScript's `<` uses on strings (code-unit order; for the
ASCII id strings involved code units and code points agree). -/
def charListLt : List Char → List Char → Bool
  | [], [] => false
  | [], _ :: _ => true
  | _ :: _, [] => false
  | a :: as, b :: bs =>
      if a.toNat < b.toNat then true
      else if b.toNat < a.toNat then false
      else charListLt as bs

/-- JavaScript string comparison `a < b`. -/
def jsStrLt (a b : String) : Bool := charListLt a.data b.data

/-- Id policy, src/server.ts lines 317-320:
`msg.actionId < context.lastAction || msg.actionId > next ? next : msg.actionId`. -/
def chosenId (lastAction actionId next : String) : String :=
  if jsStrLt actionId lastAction || jsStrLt next actionId then next else actionId

/-- The `case "action"` branch of `processFromClient`, src/server.ts
lines 311-390, as a function from the pipeline inputs to the context
after processing and the list of `(socket, message)` sends it performs,
in send order.  `next` stands for the freshly minted `v7uuid()`.
Note the source never writes `context.lastAction` in this branch. -/
def processFromClientAction {S : Type} (reducer : S → JSValue → S)
    (filter : Option (JSValue → JSValue)) (ctx : ServerCtx S) (sender : ClientCtx)
    (actionId : String) (actionData : JSValue) (next : String) :
    ServerCtx S × List (Nat × SMsg) :=
  -- ignore non-object messages.
  if jsTypeof actionData ≠ "object" then (ctx, [])
  else
    let id := chosenId ctx.lastAction actionId next
    let filteredAction := filteredActionOf filter actionData
    match respTypeOf (filteredTypeOf filter actionData) with
    | some respType =>
        (ctx, [(sender.sock, SMsg.fault respType actionId
          (jsNullish (jsOptChain filteredAction "message")
            (jsStr ("no extra message given for " ++ respType))))])
    | none =>
        let isReplaced := !(jsStrictEq filteredAction actionData)
        let senderResp : SMsg :=
          if isReplaced then SMsg.replaceAction actionId id filteredAction
          else if id ≠ actionId then SMsg.renameId actionId id
          else SMsg.ackAction actionId
        ({ ctx with state := reducer ctx.state filteredAction },
         (sender.sock, senderResp) ::
           (ctx.clients.filter (fun c => c.autoClientId ≠ sender.autoClientId)).map
             (fun c => (c.sock, SMsg.action filteredAction id)))

/-- The SHA-256 round constants `K` of src/index.ts (the source writes
them in hex, 0x428a2f98 through 0xc67178f2; decimal values here). -/
def sha256K : List Nat :=
  [1116352408, 1899447441, 3049323471, 3921009573, 961987163,
   1508970993, 2453635748, 2870763221, 3624381080, 310598401,
   607225278, 1426881987, 1925078388, 2162078206, 2614888103,
   3248222580, 3835390401, 4022224774, 264347078, 604807628,
   770255983, 1249150122, 1555081692, 1996064986, 2554220882,
   2821834349, 2952996808, 3210313671, 3336571891, 3584528711,
   113926993, 338241895, 666307205, 773529912, 1294757372,
   1396182291, 1695183700, 1986661051, 2177026350, 2456956037,
   2730485921, 2820302411, 3259730800, 3345764771, 3516065817,
   3600352804, 4094571909, 275423344, 430227734, 506948616,
   659060556, 883997877, 958139571, 1322822218, 1537002063,
   1747873779, 1955562222, 2024104815, 2227730452, 2361852424,
   2428436474, 2756734187, 3204031479, 3329325298]

/-- `ROTR(n, x)` of src/index.ts; JS 32-bit bitwise arithmetic is
modelled modulo `2^32`. -/
def ROTR (n x : Nat) : Nat := ((x >>> n) ||| (x <<< (32 - n))) % 4294967296

/-- Logical function `Σ0` of src/index.ts. -/
def bigSigma0 (x : Nat) : Nat := ROTR 2 x ^^^ ROTR 13 x ^^^ ROTR 22 x

/-- Logical function `Σ1` of src/index.ts. -/
def bigSigma1 (x : Nat) : Nat := ROTR 6 x ^^^ ROTR 11 x ^^^ ROTR 25 x

/-- Logical function `σ0` of src/index.ts. -/
def smallSigma0 (x : Nat) : Nat := ROTR 7 x ^^^ ROTR 18 x ^^^ (x >>> 3)

/-- Logical function `σ1` of src/index.ts. -/
def smallSigma1 (x : Nat) : Nat := ROTR 17 x ^^^ ROTR 19 x ^^^ (x >>> 10)

/-- `Ch(x, y, z)` of src/index.ts; `~x` on a 32-bit value is xor with
the all-ones mask. -/
def Ch (x y z : Nat) : Nat := (x &&& y) ^^^ ((4294967295 ^^^ x) &&& z)

/-- `Maj(x, y, z)` of src/index.ts. -/
def Maj (x y z : Nat) : Nat := (x &&& y) ^^^ (x &&& z) ^^^ (y &&& z)

/-- `readWithTrailingBit` of src/index.ts: the message byte, the 0x80
padding bit, or zero. -/
def readWithTrailingBit (data : List Nat) (idx : Nat) : Nat :=
  if idx < data.length then data.getD idx 0
  else if idx = data.length then 0x80
  else 0

/-- Number of 16-word blocks, `N = Math.ceil(((data.length+1)/4 + 2)/16)`
of src/index.ts, computed exactly: the JS float expression equals the
rational `(len+9)/64`, whose ceiling this is. -/
def sha256NumBlocks (len : Nat) : Nat := (len + 9 + 63) / 64

/-- Message word `M[i][j]` of src/index.ts, including the overwrite of
the last block's words 14 and 15 with the big-endian 64-bit bit length. -/
def sha256MWord (data : List Nat) (N i j : Nat) : Nat :=
  if i = N - 1 ∧ j = 14 then (data.length * 8) / 4294967296
  else if i = N - 1 ∧ j = 15 then (data.length * 8) % 4294967296
  else ((readWithTrailingBit data (i * 64 + j * 4)) <<< 24 |||
        (readWithTrailingBit data (i * 64 + j * 4 + 1)) <<< 16 |||
        (readWithTrailingBit data (i * 64 + j * 4 + 2)) <<< 8 |||
        (readWithTrailingBit data (i * 64 + j * 4 + 3))) % 4294967296

/-- Message-schedule extension, src/index.ts:
`W[t] = (σ1(W[t-2]) + W[t-7] + σ0(W[t-15]) + W[t-16]) & 0xffffffff`
for `t = 16..63`; `n` counts the remaining extension steps. -/
def sha256Extend (w : List Nat) : Nat → List Nat
  | 0 => w
  | n + 1 =>
      sha256Extend
        (w ++ [(smallSigma1 (w.getD (w.length - 2) 0) + w.getD (w.length - 7) 0 +
                smallSigma0 (w.getD (w.length - 15) 0) + w.getD (w.length - 16) 0) % 4294967296])
        n

/-- One round of the main compression loop of src/index.ts, on the
register file `[a,b,c,d,e,f,g,h]`; `kw` is the pair `(K[t], W[t])`. -/
def sha256Round (regs : List Nat) (kw : Nat × Nat) : List Nat :=
  let a := regs.getD 0 0
  let b := regs.getD 1 0
  let c := regs.getD 2 0
  let d := regs.getD 3 0
  let e := regs.getD 4 0
  let f := regs.getD 5 0
  let g := regs.getD 6 0
  let h := regs.getD 7 0
  let T1 := h + bigSigma1 e + Ch e f g + kw.1 + kw.2
  let T2 := bigSigma0 a + Maj a b c
  [(T1 + T2) % 4294967296, a, b, c, (d + T1) % 4294967296, e, f, g]

/-- Processing of one 512-bit block, src/index.ts: schedule, 64
compression rounds, then the intermediate-hash addition modulo `2^32`. -/
def sha256Block (H block : List Nat) : List Nat :=
  let W := sha256Extend block 48
  let final := (sha256K.zip W).foldl sha256Round H
  (List.range 8).map (fun i => (H.getD i 0 + final.getD i 0) % 4294967296)

/-- Initial hash value `H` of src/index.ts (hex 0x6a09e667 through
0x5be0cd19 in the source; decimal values here). -/
def sha256H0 : List Nat :=
  [1779033703, 3144134277, 1013904242, 2773480762,
   1359893119, 2600822924, 528734635, 1541459225]

/-- `sha256` of src/index.ts: byte list in, 32-byte digest out.  The
final `outHash` writes `H[i] >> (24-8k)` into a `Uint8Array`, i.e. the
big-endian bytes of each word modulo 256. -/
def sha256 (data : List Nat) : List Nat :=
  let N := sha256NumBlocks data.length
  let H := (List.range N).foldl
    (fun H i => sha256Block H ((List.range 16).map (fun j => sha256MWord data N i j)))
    sha256H0
  H.foldr (fun h out =>
    (h >>> 24) % 256 :: (h >>> 16) % 256 :: (h >>> 8) % 256 :: h % 256 :: out) []

/-- `UUIDGeneratorState` of src/sharedUUIDv7.ts.  `privKey` holds the
signature text stashed there by `signedInfoToUuid7GenParams`. -/
structure UUIDGeneratorState where
  notBefore : Nat
  lastGenTS : Nat
  lastGenSeq : Nat
  seed : List Nat
  privKey : String
deriving DecidableEq

/-- `signedInfoToUuid7GenParams` of src/sharedUUIDv7.ts, taking the
`initBytes` already decoded from base-64 (the `atob` step is identity
on the byte content): fold the first six bytes into `notBefore` and
zero them in the seed. -/
def signedInfoToUuid7GenParams (initBytes : List Nat) (signatureBase64 : String) :
    UUIDGeneratorState :=
  let notBefore := (List.range 6).foldl (fun nb i => nb * 256 + initBytes.getD i 0) 0
  let seed := (List.range 6).foldl (fun s i => s.set i 0) initBytes
  ⟨notBefore, notBefore, 0, seed, signatureBase64⟩

/-- Timestamp byte `i` written by `newUUIDv7Bytes`:
`255 & (ts / Math.pow(256, 5 - i))`; the JS float division is exact for
the 48-bit timestamps in use, the bitwise ops truncate to the byte. -/
def uuidTSByte (ts i : Nat) : Nat := (ts / 256 ^ (5 - i)) % 256

/-- `newUUIDv7Bytes` of src/sharedUUIDv7.ts.  `now` models `Date.now()`
(read only when `ts?` is absent); the mutations of `gp` in the
fire-and-forget branch are made explicit by returning the updated
state alongside the bytes.  When the caller supplies `ts` the state is
returned untouched, as in the source. -/
def newUUIDv7Bytes (gp : UUIDGeneratorState) (now : Nat) (ts? seq? : Option Nat) :
    List Nat × UUIDGeneratorState :=
  let tsq : Nat × Nat × UUIDGeneratorState :=
    match ts? with
    | none =>
        -- never generate in the "past"
        let ts := if now < gp.lastGenTS then gp.lastGenTS else now
        -- keep a sequence count for each millisecond
        if ts = gp.lastGenTS then
          let s := gp.lastGenSeq + 1
          if 16 * 256 ≤ s then
            (ts + 1, 0, { gp with lastGenSeq := 0, lastGenTS := ts + 1 })
          else (ts, s, { gp with lastGenSeq := s })
        else (ts, 0, { gp with lastGenSeq := 0 })
    | some ts => (ts, seq?.getD 0, gp)
  let ts := tsq.1
  let seq := tsq.2.1
  -- tweak the seed with the timestamp for the sha256 pseudo-randomization
  let seedBytes := (List.range 6).foldl (fun b i => b.set i (uuidTSByte ts i)) gp.seed
  let seedBytes := (seedBytes.set 6 ((seq >>> 8) &&& 0xff)).set 7 (seq &&& 0xff)
  let digested := sha256 seedBytes
  let uuid := digested.take 16
  -- set a correct timestamp
  let uuid := (List.range 6).foldl (fun u i => u.set i (uuidTSByte ts i)) uuid
  -- version nibble, 12-bit sequence, variant bits
  let uuid := (uuid.set 6 (0x70 ||| ((seq >>> 8) &&& 0xf))).set 7 (seq &&& 0xff)
  let uuid := uuid.set 8 (0x80 ||| (uuid.getD 8 0 &&& 0x3f))
  (uuid, tsq.2.2)

/-- `isUUIDv7` of src/sharedUUIDv7.ts. -/
def isUUIDv7 (uuid : List Nat) : Bool :=
  uuid.length == 16 && (uuid.getD 6 0 &&& 0xf0) == 0x70 && (uuid.getD 8 0 &&& 0xc0) == 0x80

/-- `getUUIDv7Timestamp` of src/sharedUUIDv7.ts. -/
def getUUIDv7Timestamp (uuid : List Nat) : Nat :=
  (List.range 6).foldl (fun t i => t * 256 + uuid.getD i 0) 0

/-- `getUUIDv7SeqNo` of src/sharedUUIDv7.ts. -/
def getUUIDv7SeqNo (uuid : List Nat) : Nat :=
  ((uuid.getD 6 0 &&& 0xf) <<< 8) + (uuid.getD 7 0 &&& 0xff)

/-- Lowercase hex digit, as produced by `(v).toString(16)` for `v < 16`. -/
def hexChar (n : Nat) : Char :=
  if n < 10 then Char.ofNat (48 + n) else Char.ofNat (87 + n)

/-- `uuidBytesToString` of src/sharedUUIDv7.ts: 16 bytes to the
36-character dashed lowercase hex form. -/
def uuidBytesToString (bytes : List Nat) : String :=
  String.mk ((List.range 16).foldl (fun out i =>
    let out := if i = 4 ∨ i = 6 ∨ i = 8 ∨ i = 10 then out ++ [Char.ofNat 45] else out
    out ++ [hexChar (bytes.getD i 0 >>> 4), hexChar (bytes.getD i 0 &&& 0xf)]) [])

/-- `hexAsciiToBits` of src/sharedUUIDv7.ts, with the `-1` sentinel. -/
def hexAsciiToBits (ascii : Nat) : Int :=
  if 48 ≤ ascii ∧ ascii ≤ 57 then (ascii : Int) - 48
  else if 97 ≤ ascii ∧ ascii ≤ 102 then (ascii : Int) - 97 + 10
  else if 65 ≤ ascii ∧ ascii ≤ 70 then (ascii : Int) - 65 + 10
  else -1

/-- The scanning loop of `parseUUIDString` (src/sharedUUIDv7.ts lines
138-167).  The source runs it twice (a dry validation pass, then a
writing pass) with identical control flow; one pass is modelled.  The
write into the `Uint8Array` output buffer is
`obuf[oidx++] = (cc0 << 16) | cc1`, which a `Uint8Array` truncates
modulo 256 - kept verbatim here.  Reading past the end of the string
gives `NaN`, which fails both the dash test and `hexAsciiToBits`. -/
def parseUUIDLoop : List Char → Nat → Nat → List Nat → Option (List Nat)
  | cs, iidx, oidx, acc =>
    if iidx < 36 ∧ oidx < 16 then
      match cs with
      | [] => none
      | c :: rest =>
          if c.toNat = 45 then
            if iidx = 8 ∨ iidx = 13 ∨ iidx = 18 ∨ iidx = 23 then
              parseUUIDLoop rest (iidx + 1) oidx acc
            else none
          else
            match rest with
            | [] => none
            | c2 :: rest2 =>
                let cc0 := hexAsciiToBits c.toNat
                let cc1 := hexAsciiToBits c2.toNat
                if cc0 = -1 ∨ cc1 = -1 then none
                else
                  parseUUIDLoop rest2 (iidx + 2) (oidx + 1)
                    (acc ++ [((cc0.toNat <<< 16) ||| cc1.toNat) % 256])
    else if iidx = 36 ∧ oidx = 16 then some acc else none

/-- `parseUUIDString` of src/sharedUUIDv7.ts: strict 36-character parse
returning the 16 output bytes or `none`. -/
def parseUUIDString (s : String) : Option (List Nat) :=
  if s.length ≠ 36 then none
  else parseUUIDLoop s.data 0 0 []

/-- `newUUIDv7String` of src/sharedUUIDv7.ts. -/
def newUUIDv7String (gp : UUIDGeneratorState) (now : Nat) (ts? seq? : Option Nat) : String :=
  uuidBytesToString (newUUIDv7Bytes gp now ts? seq?).1

/-- `verifyUUID` of the filter context, src/server.ts lines 260-271:
parse, check v7, extract (ts, seq), re-mint under the session's
generator state and compare byte-wise.  `now` is irrelevant because
`ts` is always supplied to `newUUIDv7Bytes` here. -/
def verifyUUID (uuidGenState : Option UUIDGeneratorState) (uuid : String) : Bool :=
  match uuidGenState with
  | none => false
  | some gs =>
    match parseUUIDString uuid with
    | none => false
    | some parsed =>
        if !isUUIDv7 parsed then false
        else
          let ts := getUUIDv7Timestamp parsed
          let seq := getUUIDv7SeqNo parsed
          let checked := (newUUIDv7Bytes gs 0 (some ts) (some seq)).1
          checked.length == parsed.length && (checked.zip parsed).all (fun p => p.1 == p.2)

/-- Result of the external `hydrate` collaborator: a resolved value
(`null` modelled as `none`) or a thrown error. -/
inductive HydrateOutcome (S : Type) where
  | returns (v : Option S)
  | throws

/-- Final disposition of the promise installed in `pendings` by
`createContext`: resolved with a value, rejected, or never settled. -/
inductive Settlement (C : Type) where
  | unsettled
  | resolved (v : Option C)
  | rejected
deriving DecidableEq

/-- What a concurrent caller that found the key in `pendings` and does
`await pending` obtains: `some v` once the future resolves with `v`;
no value ever (`none`) if the future is rejected (the await throws) or
never settled (the await suspends forever). -/
def awaitFuture {C : Type} : Settlement C → Option (Option C)
  | Settlement.resolved v => some v
  | _ => none

/-- Observable outcome of one cold `createContext(key)` run: the value
returned to the initiating caller, the `pendings` keys and `contexts`
entries afterwards, and how the installed future was settled. -/
structure CreateOutcome (C : Type) where
  result : Option C
  pendingKeysAfter : List String
  contextsAfter : List (String × C)
  settlement : Settlement C

/-- `createContext` of src/server.ts lines 110-180 on a key that is not
in `pendings` (the cold path; a warm caller just awaits the pending
future, see `awaitFuture`).  The hydrate call's outcome is passed in as
`hyd`; `mk` stands for the construction of the context record from the
hydrated initial state (`createStore` etc.).  Control flow:
a fresh unsettled promise is stored under `key`; on `hyd = returns none`
the function does `return null`, leaving the promise unsettled; on a
state it stores the context, resolves and returns it; on a throw it
rejects the promise; the `finally` block deletes `key` from `pendings`
in every path. -/
def createContextCold {S C : Type} (key : String) (pendingKeys : List String)
    (contexts : List (String × C)) (hyd : HydrateOutcome S) (mk : S → C) :
    CreateOutcome C :=
  let pendingKeys1 := key :: pendingKeys
  match hyd with
  | HydrateOutcome.returns none =>
      ⟨none, pendingKeys1.erase key, contexts, Settlement.unsettled⟩
  | HydrateOutcome.returns (some s) =>
      let c := mk s
      ⟨some c, pendingKeys1.erase key, (key, c) :: contexts, Settlement.resolved (some c)⟩
  | HydrateOutcome.throws =>
      ⟨none, pendingKeys1.erase key, contexts, Settlement.rejected⟩

set_option maxRecDepth 100000

/-- The generator state obtained by decoding a signed parameter bundle
whose 80 `initBytes` are all zero (so `notBefore = 0` and the seed is
80 zero bytes); a concrete instance of the session `genState`. -/
def g0 : UUIDGeneratorState := signedInfoToUuid7GenParams (List.replicate 80 0) "sig"

/-- Helper: a list without duplicates on which exactly the element `a`
satisfies `p` has `countP p = 1`. -/
theorem countP_one_of_unique {α : Type} {l : List α} {p : α → Bool} {a : α}
    (hnd : l.Nodup) (ha : a ∈ l) (hpa : p a = true)
    (huniq : ∀ b ∈ l, p b = true → b = a) : l.countP p = 1 := by
  induction l with
  | nil => cases ha
  | cons x xs ih =>
    rcases List.mem_cons.mp ha with rfl | hax
    · rw [List.countP_cons_of_pos _ _ hpa]
      have hz : xs.countP p = 0 := List.countP_eq_zero.mpr (fun b hb hpb => by
        have hba := huniq b (List.mem_cons_of_mem _ hb) hpb
        subst hba
        exact (List.nodup_cons.mp hnd).1 hb)
      rw [hz]
    · have hpx : p x = false := by
        by_contra hcon
        have hx : p x = true := by revert hcon; cases p x <;> simp
        have hxa := huniq x (List.mem_cons_self x xs) hx
        exact (List.nodup_cons.mp hnd).1 (hxa ▸ hax)
      rw [List.countP_cons_of_neg _ _ (by simp [hpx])]
      exact ih (List.nodup_cons.mp hnd).2 hax
        (fun b hb hpb => huniq b (List.mem_cons_of_mem _ hb) hpb)

/-- C8 (counterexample): the claim includes `null` among the payloads
that are silently dropped, but JavaScript's `typeof null` is
`"object"`, so a `null` actionData passes the guard: with an
incrementing reducer and identity filter the state changes from 0 to 1
and the sender is acked - a message is sent. -/
theorem c8_null_payload_is_processed :
    (processFromClientAction (fun (s : Nat) _ => s + 1) none
        ⟨0, "b", [⟨0, "u1"⟩]⟩ ⟨0, "u1"⟩ "c" JSValue.jsNull "d").1.state = 1
    ∧ (processFromClientAction (fun (s : Nat) _ => s + 1) none
        ⟨0, "b", [⟨0, "u1"⟩]⟩ ⟨0, "u1"⟩ "c" JSValue.jsNull "d").2
        = [(0, SMsg.ackAction "c")]
    ∧ [(0, SMsg.ackAction "c")] ≠ ([] : List (Nat × SMsg)) := by
  refine ⟨rfl, rfl, by simp⟩

/-- C8 (amended): an actionData whose `typeof` is not `"object"` -
strings, numbers, booleans, undefined, but not `null` - leaves the
context (state and lastAction) unchanged and sends no message. -/
theorem c8_nonobject_payload_dropped {S : Type} (reducer : S → JSValue → S)
    (filter : Option (JSValue → JSValue)) (ctx : ServerCtx S) (sender : ClientCtx)
    (actionId : String) (actionData : JSValue) (next : String)
    (hobj : jsTypeof actionData ≠ "object") :
    processFromClientAction reducer filter ctx sender actionId actionData next = (ctx, []) := by
  unfold processFromClientAction
  rw [if_pos hobj]

/-- Witness for C8 (amended) at a string payload. -/
theorem c8_nonobject_payload_dropped_witness :
    jsTypeof (JSValue.jsStr "hi") ≠ "object"
    ∧ processFromClientAction (fun (s : Nat) _ => s) none ⟨0, "a", []⟩ ⟨0, "u"⟩ "b"
        (JSValue.jsStr "hi") "c" = (⟨0, "a", []⟩, []) :=
  ⟨by decide, c8_nonobject_payload_dropped (fun (s : Nat) _ => s) none ⟨0, "a", []⟩ ⟨0, "u"⟩
    "b" (JSValue.jsStr "hi") "c" (by decide)⟩

/-- C6: on a fault verdict - the filter returned one of the strings
`"reject"` / `"needAuth"` / `"badAuth"`, or a fault object whose `type`
field is one of them (both cases are exactly
`filteredTypeOf filter actionData = jsStr v`) - the sender receives
exactly the corresponding `rejectAction` / `needAuthentication` /
`badAuthorization` response whose message is the fault object's
`message` field, defaulting to `"no extra message given for <respType>"`;
the context (state and lastAction) is unchanged and no other client is
sent anything. -/
theorem c6_fault_verdict_response {S : Type} (reducer : S → JSValue → S)
    (filter : Option (JSValue → JSValue)) (ctx : ServerCtx S) (sender : ClientCtx)
    (actionId : String) (actionData : JSValue) (next : String) (v rt : String)
    (hobj : jsTypeof actionData = "object")
    (hv : filteredTypeOf filter actionData = JSValue.jsStr v)
    (hrt : (v, rt) ∈ [("reject", "rejectAction"), ("needAuth", "needAuthentication"),
        ("badAuth", "badAuthorization")]) :
    processFromClientAction reducer filter ctx sender actionId actionData next
      = (ctx, [(sender.sock, SMsg.fault rt actionId
          (jsNullish (jsOptChain (filteredActionOf filter actionData) "message")
            (JSValue.jsStr ("no extra message given for " ++ rt))))]) := by
  have hrt2 : v = "reject" ∧ rt = "rejectAction" ∨ v = "needAuth" ∧ rt = "needAuthentication"
      ∨ v = "badAuth" ∧ rt = "badAuthorization" := by
    simpa [Prod.ext_iff] using hrt
  rcases hrt2 with ⟨hv1, hr1⟩ | ⟨hv1, hr1⟩ | ⟨hv1, hr1⟩ <;>
    subst hv1 <;> subst hr1 <;>
    simp [processFromClientAction, hobj, hv, respTypeOf]

/-- Witness for C6 at a filter that returns the string `"reject"`. -/
theorem c6_fault_verdict_response_witness :
    jsTypeof (JSValue.jsObj 0 []) = "object"
    ∧ filteredTypeOf (some (fun _ => JSValue.jsStr "reject")) (JSValue.jsObj 0 [])
        = JSValue.jsStr "reject"
    ∧ (("reject", "rejectAction") ∈ [("reject", "rejectAction"),
        ("needAuth", "needAuthentication"), ("badAuth", "badAuthorization")])
    ∧ processFromClientAction (fun (s : Nat) _ => s) (some (fun _ => JSValue.jsStr "reject"))
        ⟨0, "a", [⟨1, "u2"⟩]⟩ ⟨0, "u"⟩ "b" (JSValue.jsObj 0 []) "c"
      = (⟨0, "a", [⟨1, "u2"⟩]⟩, [(0, SMsg.fault "rejectAction" "b"
          (jsNullish (jsOptChain (filteredActionOf (some (fun _ => JSValue.jsStr "reject"))
            (JSValue.jsObj 0 [])) "message")
            (JSValue.jsStr ("no extra message given for " ++ "rejectAction"))))]) :=
  ⟨rfl, rfl, by simp,
    c6_fault_verdict_response (fun (s : Nat) _ => s) (some (fun _ => JSValue.jsStr "reject"))
      ⟨0, "a", [⟨1, "u2"⟩]⟩ ⟨0, "u"⟩ "b" (JSValue.jsObj 0 []) "c" "reject" "rejectAction"
      rfl rfl (by simp)⟩

/-- C9: with both `ts` and `seq` supplied, `newUUIDv7Bytes` is
deterministic over the seed - two generator states with equal seed
bytes yield identical output bytes regardless of their other fields and
of the wall clock - and the generator state is returned entirely
unchanged (`notBefore`, `lastGenTS`, `lastGenSeq`, `seed` and all). -/
theorem c9_mint_deterministic_and_pure (g1 g2 : UUIDGeneratorState)
    (now1 now2 ts seq : Nat) (h : g1.seed = g2.seed) :
    (newUUIDv7Bytes g1 now1 (some ts) (some seq)).1
      = (newUUIDv7Bytes g2 now2 (some ts) (some seq)).1
    ∧ (newUUIDv7Bytes g1 now1 (some ts) (some seq)).2 = g1 := by
  constructor
  · simp only [newUUIDv7Bytes, h]
  · rfl

/-- Witness for C9 at the concrete decoded state `g0`. -/
theorem c9_mint_deterministic_and_pure_witness :
    g0.seed = g0.seed
    ∧ ((newUUIDv7Bytes g0 0 (some 1) (some 2)).1 = (newUUIDv7Bytes g0 5 (some 1) (some 2)).1
       ∧ (newUUIDv7Bytes g0 0 (some 1) (some 2)).2 = g0) :=
  ⟨rfl, c9_mint_deterministic_and_pure g0 g0 0 5 1 2 rfl⟩

/-- C10: a filter that returns a `Promise` is neither awaited nor
treated as an error: the promise value's `type` property is undefined,
so it is not a fault verdict; the promise itself is dispatched to the
reducer as the accepted action, reported to the sender as a
`replaceAction` (strict inequality with the original object holds), and
fanned out to every other client. -/
theorem c10_promise_verdict_accepted {S : Type} (reducer : S → JSValue → S)
    (ctx : ServerCtx S) (sender : ClientCtx) (actionId next : String)
    (f : JSValue → JSValue) (pr ref : Nat) (fields : List (String × JSValue))
    (hf : f (JSValue.jsObj ref fields) = JSValue.jsPromise pr) :
    filteredTypeOf (some f) (JSValue.jsObj ref fields) = JSValue.jsPromise pr
    ∧ respTypeOf (JSValue.jsPromise pr) = none
    ∧ jsStrictEq (JSValue.jsPromise pr) (JSValue.jsObj ref fields) = false
    ∧ processFromClientAction reducer (some f) ctx sender actionId
        (JSValue.jsObj ref fields) next
      = ({ ctx with state := reducer ctx.state (JSValue.jsPromise pr) },
         (sender.sock, SMsg.replaceAction actionId (chosenId ctx.lastAction actionId next)
            (JSValue.jsPromise pr)) ::
         (ctx.clients.filter (fun c => c.autoClientId ≠ sender.autoClientId)).map
            (fun c => (c.sock, SMsg.action (JSValue.jsPromise pr)
              (chosenId ctx.lastAction actionId next)))) := by
  refine ⟨?_, rfl, rfl, ?_⟩
  · simp [filteredTypeOf, filteredActionOf, hf, jsOptChain, jsNullish]
  · simp [processFromClientAction, filteredTypeOf, filteredActionOf, hf, jsOptChain,
      jsNullish, respTypeOf, jsTypeof, jsStrictEq]

/-- Witness for C10 at a filter constantly returning a promise. -/
theorem c10_promise_verdict_accepted_witness :
    (fun (_ : JSValue) => JSValue.jsPromise 7) (JSValue.jsObj 0 []) = JSValue.jsPromise 7
    ∧ (filteredTypeOf (some (fun _ => JSValue.jsPromise 7)) (JSValue.jsObj 0 [])
        = JSValue.jsPromise 7
      ∧ respTypeOf (JSValue.jsPromise 7) = none
      ∧ jsStrictEq (JSValue.jsPromise 7) (JSValue.jsObj 0 []) = false
      ∧ processFromClientAction (fun (s : Nat) _ => s) (some (fun _ => JSValue.jsPromise 7))
          ⟨0, "a", [⟨0, "u1"⟩, ⟨1, "u2"⟩]⟩ ⟨0, "u1"⟩ "b" (JSValue.jsObj 0 []) "c"
        = ({ (⟨0, "a", [⟨0, "u1"⟩, ⟨1, "u2"⟩]⟩ : ServerCtx Nat) with
              state := (fun (s : Nat) _ => s) 0 (JSValue.jsPromise 7) },
           (0, SMsg.replaceAction "b" (chosenId "a" "b" "c") (JSValue.jsPromise 7)) ::
           (([⟨0, "u1"⟩, ⟨1, "u2"⟩] : List ClientCtx).filter
              (fun c => c.autoClientId ≠ "u1")).map
              (fun c => (c.sock, SMsg.action (JSValue.jsPromise 7) (chosenId "a" "b" "c"))))) :=
  ⟨rfl, c10_promise_verdict_accepted (fun (s : Nat) _ => s) ⟨0, "a", [⟨0, "u1"⟩, ⟨1, "u2"⟩]⟩
    ⟨0, "u1"⟩ "b" "c" (fun _ => JSValue.jsPromise 7) 7 0 [] rfl⟩

/-- C4: for an accepted action (the filter verdict is not a fault) from
a sender present in the client map with distinct socket keys, the
sender's socket receives exactly one message, which is `replaceAction`
when the filter result is a different object from the original
actionData, `renameId` when it is not replaced but the chosen id
differs from the client's `actionId`, and `ackAction` otherwise; and
every client whose `autoClientId` differs from the sender's receives
exactly one message, the `{action, id}` fan-out of the accepted action. -/
theorem c4_accept_sender_and_fanout {S : Type} (reducer : S → JSValue → S)
    (filter : Option (JSValue → JSValue)) (ctx : ServerCtx S) (sender : ClientCtx)
    (actionId : String) (actionData : JSValue) (next : String)
    (hobj : jsTypeof actionData = "object")
    (hacc : respTypeOf (filteredTypeOf filter actionData) = none)
    (hmem : sender ∈ ctx.clients)
    (hnd : (ctx.clients.map ClientCtx.sock).Nodup) :
    (processFromClientAction reducer filter ctx sender actionId actionData next).2.countP
        (fun q => q.1 == sender.sock) = 1
    ∧ (jsStrictEq (filteredActionOf filter actionData) actionData = false →
        (processFromClientAction reducer filter ctx sender actionId actionData next).2.head?
          = some (sender.sock, SMsg.replaceAction actionId
              (chosenId ctx.lastAction actionId next) (filteredActionOf filter actionData)))
    ∧ (jsStrictEq (filteredActionOf filter actionData) actionData = true →
        chosenId ctx.lastAction actionId next ≠ actionId →
        (processFromClientAction reducer filter ctx sender actionId actionData next).2.head?
          = some (sender.sock, SMsg.renameId actionId (chosenId ctx.lastAction actionId next)))
    ∧ (jsStrictEq (filteredActionOf filter actionData) actionData = true →
        chosenId ctx.lastAction actionId next = actionId →
        (processFromClientAction reducer filter ctx sender actionId actionData next).2.head?
          = some (sender.sock, SMsg.ackAction actionId))
    ∧ ∀ c ∈ ctx.clients, c.autoClientId ≠ sender.autoClientId →
        (processFromClientAction reducer filter ctx sender actionId actionData next).2.countP
            (fun q => q.1 == c.sock) = 1
        ∧ (c.sock, SMsg.action (filteredActionOf filter actionData)
            (chosenId ctx.lastAction actionId next))
            ∈ (processFromClientAction reducer filter ctx sender actionId actionData next).2 := by
  have hinj : ∀ a ∈ ctx.clients, ∀ b ∈ ctx.clients, a.sock = b.sock → a = b :=
    fun a ha b hb hab => List.inj_on_of_nodup_map hnd ha hb hab
  have hout : (processFromClientAction reducer filter ctx sender actionId actionData next).2
      = (sender.sock,
          if !(jsStrictEq (filteredActionOf filter actionData) actionData) then
            SMsg.replaceAction actionId (chosenId ctx.lastAction actionId next)
              (filteredActionOf filter actionData)
          else if chosenId ctx.lastAction actionId next ≠ actionId then
            SMsg.renameId actionId (chosenId ctx.lastAction actionId next)
          else SMsg.ackAction actionId) ::
        (ctx.clients.filter (fun c => c.autoClientId ≠ sender.autoClientId)).map
          (fun c => (c.sock, SMsg.action (filteredActionOf filter actionData)
            (chosenId ctx.lastAction actionId next))) := by
    simp only [processFromClientAction, hobj, hacc]
    simp
  refine ⟨?_, ?_, ?_, ?_, ?_⟩
  · rw [hout, List.countP_cons]
    simp only [List.countP_map, List.countP_filter, Function.comp]
    have hz : ctx.clients.countP
        (fun c => (c.sock == sender.sock) && decide (c.autoClientId ≠ sender.autoClientId))
        = 0 := by
      rw [List.countP_eq_zero]
      intro c hc hcon
      simp only [Bool.and_eq_true, beq_iff_eq, decide_eq_true_eq] at hcon
      cases hinj c hc sender hmem hcon.1
      exact hcon.2 rfl
    rw [hz]
    simp
  · intro hrepl
    rw [hout]
    simp [hrepl]
  · intro heq hneq
    rw [hout]
    simp [heq, hneq]
  · intro heq hid
    rw [hout]
    simp [heq, hid]
  · intro c hc hca
    constructor
    · rw [hout, List.countP_cons]
      have hsne : ((sender.sock, (if !(jsStrictEq (filteredActionOf filter actionData) actionData) then
            SMsg.replaceAction actionId (chosenId ctx.lastAction actionId next)
              (filteredActionOf filter actionData)
          else if chosenId ctx.lastAction actionId next ≠ actionId then
            SMsg.renameId actionId (chosenId ctx.lastAction actionId next)
          else SMsg.ackAction actionId)).1 == c.sock) = false := by
        simp only [beq_eq_false_iff_ne, ne_eq]
        intro h
        cases hinj sender hmem c hc h
        exact hca rfl
      rw [hsne]
      simp only [List.countP_map, List.countP_filter, Function.comp]
      have hone : ctx.clients.countP
          (fun x => (x.sock == c.sock) && decide (x.autoClientId ≠ sender.autoClientId))
          = 1 := by
        refine countP_one_of_unique (List.Nodup.of_map _ hnd) hc ?_ ?_
        · simp [hca]
        · intro b hb hpb
          simp only [Bool.and_eq_true, beq_iff_eq, decide_eq_true_eq] at hpb
          exact hinj b hb c hc hpb.1
      rw [hone]
      simp
    · rw [hout]
      refine List.mem_cons_of_mem _ ?_
      exact List.mem_map_of_mem _ (List.mem_filter.mpr ⟨hc, by simp [hca]⟩)

/-- Witness for C4 at a two-client context with the identity filter. -/
theorem c4_accept_sender_and_fanout_witness :
    jsTypeof (JSValue.jsObj 0 []) = "object"
    ∧ respTypeOf (filteredTypeOf none (JSValue.jsObj 0 [])) = none
    ∧ (⟨0, "u1"⟩ : ClientCtx) ∈ ([⟨0, "u1"⟩, ⟨1, "u2"⟩] : List ClientCtx)
    ∧ (([⟨0, "u1"⟩, ⟨1, "u2"⟩] : List ClientCtx).map ClientCtx.sock).Nodup
    ∧ (processFromClientAction (fun (s : Nat) _ => s) none ⟨0, "b", [⟨0, "u1"⟩, ⟨1, "u2"⟩]⟩
        ⟨0, "u1"⟩ "c" (JSValue.jsObj 0 []) "d").2.countP (fun q => q.1 == 0) = 1 :=
  ⟨rfl, rfl, by simp, by simp,
    (c4_accept_sender_and_fanout (fun (s : Nat) _ => s) none ⟨0, "b", [⟨0, "u1"⟩, ⟨1, "u2"⟩]⟩
      ⟨0, "u1"⟩ "c" (JSValue.jsObj 0 []) "d" rfl rfl (by simp) (by simp)).1⟩

/-- C1 (code evaluation): on an accepted action the reducer is applied
to the state, but `context.lastAction` is never written by the dispatch
path: after accepting the action with chosen id
`018f0000-0000-7000-8000-000000000001` the state is the reducer result,
while `lastAction` still holds the value it had at context creation,
different from the chosen id - contradicting
`context.lastActionId := id`. -/
theorem c1_lastAction_never_updated :
    (processFromClientAction (fun (s : Nat) _ => s + 1) none
        ⟨0, "018f0000-0000-7000-8000-000000000000", [⟨0, "u1"⟩, ⟨1, "u2"⟩]⟩ ⟨0, "u1"⟩
        "018f0000-0000-7000-8000-000000000001" (JSValue.jsObj 0 [("type", JSValue.jsStr "inc")])
        "018f0000-0000-7000-8000-000000000002").1.state = 1
    ∧ chosenId "018f0000-0000-7000-8000-000000000000" "018f0000-0000-7000-8000-000000000001"
        "018f0000-0000-7000-8000-000000000002" = "018f0000-0000-7000-8000-000000000001"
    ∧ (processFromClientAction (fun (s : Nat) _ => s + 1) none
        ⟨0, "018f0000-0000-7000-8000-000000000000", [⟨0, "u1"⟩, ⟨1, "u2"⟩]⟩ ⟨0, "u1"⟩
        "018f0000-0000-7000-8000-000000000001" (JSValue.jsObj 0 [("type", JSValue.jsStr "inc")])
        "018f0000-0000-7000-8000-000000000002").1.lastAction
        = "018f0000-0000-7000-8000-000000000000"
    ∧ ("018f0000-0000-7000-8000-000000000000" : String)
        ≠ "018f0000-0000-7000-8000-000000000001" :=
  ⟨rfl, rfl, rfl, by decide⟩

/-- C5 (code evaluation): the staleness test is strict, so an
`actionId` equal to `context.lastAction` (and not above `next`) is kept
as the chosen id and acked - not replaced by the freshly minted `next`
as the claim demands. -/
theorem c5_equal_actionId_kept :
    chosenId "018f0000-0000-7000-8000-000000000001" "018f0000-0000-7000-8000-000000000001"
        "018f0000-0000-7000-8000-000000000002" = "018f0000-0000-7000-8000-000000000001"
    ∧ ("018f0000-0000-7000-8000-000000000001" : String)
        ≠ "018f0000-0000-7000-8000-000000000002"
    ∧ (processFromClientAction (fun (s : Nat) _ => s) none
        ⟨0, "018f0000-0000-7000-8000-000000000001", [⟨0, "u1"⟩]⟩ ⟨0, "u1"⟩
        "018f0000-0000-7000-8000-000000000001" (JSValue.jsObj 0 [])
        "018f0000-0000-7000-8000-000000000002").2
        = [(0, SMsg.ackAction "018f0000-0000-7000-8000-000000000001")] :=
  ⟨rfl, by decide, rfl⟩

/-- C3 (code evaluation): the string codec does not round-trip.  For
the v7 byte array underlying `018f0000-0000-7000-8000-000000000001`,
`parseUUIDString (uuidBytesToString b)` returns only the low nibble of
every byte (the source stores `(cc0 << 16) | cc1` into a `Uint8Array`,
losing `cc0`), so the result differs from `b`. -/
theorem c3_string_codec_no_roundtrip :
    isUUIDv7 [0x01, 0x8f, 0, 0, 0, 0, 0x70, 0, 0x80, 0, 0, 0, 0, 0, 0, 0x01] = true
    ∧ parseUUIDString (uuidBytesToString
        [0x01, 0x8f, 0, 0, 0, 0, 0x70, 0, 0x80, 0, 0, 0, 0, 0, 0, 0x01])
      = some [1, 15, 0, 0, 0, 0, 0, 0, 0, 0, 0, 0, 0, 0, 0, 1]
    ∧ ([1, 15, 0, 0, 0, 0, 0, 0, 0, 0, 0, 0, 0, 0, 0, 1] : List Nat)
        ≠ [0x01, 0x8f, 0, 0, 0, 0, 0x70, 0, 0x80, 0, 0, 0, 0, 0, 0, 0x01] := by
  refine ⟨by decide, by decide, by decide⟩

/-- C2 (code evaluation): under the decoded all-zero seed bundle `g0`,
the UUID minted with supplied `ts = 1 < 2^48` and `seq = 1 < 4096` is a
well-formed v7, yet the filter context's `verifyUUID` on its string
form returns `false`: the lossy parse zeroes the version nibble, so the
`isUUIDv7` check on the parsed bytes fails - the reconstruction never
happens and proof-of-origin is unachievable. -/
theorem c2_verify_rejects_issued_seed_uuid :
    isUUIDv7 (newUUIDv7Bytes g0 0 (some 1) (some 1)).1 = true
    ∧ verifyUUID (some g0) (newUUIDv7String g0 0 (some 1) (some 1)) = false := by
  refine ⟨by decide, by decide⟩

/-- C7 (code evaluation): when hydrate resolves to nil on a cold key,
`createContext` returns null to the initiating caller and the `finally`
block removes the key from `pendings`, but the installed future is
never settled - `resolvePending` is not called - so a concurrent caller
awaiting it never obtains nil; no context or tombstone is stored, so a
later call would hydrate again. -/
theorem c7_nil_hydrate_future_never_resolved {S C : Type} (key : String)
    (pendingKeys : List String) (contexts : List (String × C)) (mk : S → C) :
    (createContextCold key pendingKeys contexts (HydrateOutcome.returns none) mk).result = none
    ∧ (createContextCold key pendingKeys contexts
        (HydrateOutcome.returns none) mk).pendingKeysAfter = pendingKeys
    ∧ (createContextCold key pendingKeys contexts
        (HydrateOutcome.returns none) mk).contextsAfter = contexts
    ∧ (createContextCold key pendingKeys contexts
        (HydrateOutcome.returns none) mk).settlement = Settlement.unsettled
    ∧ awaitFuture (createContextCold key pendingKeys contexts
        (HydrateOutcome.returns none) mk).settlement = none
    ∧ (createContextCold key pendingKeys contexts
        (HydrateOutcome.returns none) mk).settlement ≠ Settlement.resolved none := by
  refine ⟨rfl, ?_, rfl, rfl, rfl, by simp [createContextCold]⟩
  simp [createContextCold]
